import Mathlib

/-!
# Transit — verification of the place-occupancy, session and command-dispatch core

Shallow embedding of the Python sources of the Transit repository:
`places.py` (place admission), `main.py` (command dispatcher, sqlite-backed
`Database`), `TransitSystem.py` (sqlalchemy-backed variant) and `Vehicle.py`
(per-vehicle motion loop).  Timestamps are modelled as integers (seconds),
the database tables as lists of rows, and each Python function as a pure
Lean function from the old state to the new state plus its result.
-/

namespace Transit

/-! ## Data model (`Database.py`)

`Place` mirrors the `places` table: optional integer capacity (`None` =
unlimited), optional stay duration, pass-through flag.  `Occupancy` mirrors
`place_occupancy` (the `occupancy_id` uuid and `entered_at` column play no
role in any claim and are omitted; rows are kept in insertion order, which
is how `first()`/`count()` see them). -/

structure Place where
  place_id : String
  max_capacity : Option Int
  stay_time_seconds : Option Int
  pass_through : Bool
deriving DecidableEq, Repr

structure Occupancy where
  vehicle_id : String
  place_id : String
  leave_after : Int
deriving DecidableEq, Repr

/-- The database state seen by `places.py`: the immutable `places` table and
the mutable `place_occupancy` table. -/
structure PlacesDB where
  places : List Place
  occupancy : List Occupancy
deriving DecidableEq, Repr

/-- Python's `x or d` on an optional integer: `None` and `0` are falsy, any
other integer is truthy.  This is how `places.py` line 35 and `Vehicle.py`
line 407 compute the effective stay time (`place.stay_time_seconds or 60`). -/
def pyOrInt (x : Option Int) (d : Int) : Int :=
  match x with
  | none => d
  | some v => if v = 0 then d else v

/-! ## `places.py` -/

/-- `get_place_by_id`: `session.query(Place).filter_by(place_id=place_id).first()`. -/
def get_place_by_id (db : PlacesDB) (place_id : String) : Option Place :=
  db.places.find? (fun p => p.place_id == place_id)

/-- The live occupancy count of a place:
`session.query(PlaceOccupancy).filter_by(place_id=place_id).count()`. -/
def occupancy_count (db : PlacesDB) (place_id : String) : Nat :=
  (db.occupancy.filter (fun o => o.place_id == place_id)).length

/-- `is_place_full`: `False` when the place is unknown or has no capacity,
else `current >= place.max_capacity`. -/
def is_place_full (db : PlacesDB) (place_id : String) : Bool :=
  match get_place_by_id db place_id with
  | none => false
  | some place =>
    match place.max_capacity with
    | none => false
    | some cap => cap ≤ (occupancy_count db place_id : Int)

/-- `try_enter_place`: unknown place → `INVALID_PLACE`; pass-through →
`PASSTHROUGH` (no write); full → `FULL` (no write); otherwise insert one
occupancy row with `leave_after = now + (stay_time_seconds or 60)` and
return `ENTERED`.  `now` stands for `datetime.utcnow()`. -/
def try_enter_place (db : PlacesDB) (vehicle_id place_id : String) (now : Int) :
    PlacesDB × Bool × String :=
  match get_place_by_id db place_id with
  | none => (db, false, "INVALID_PLACE")
  | some place =>
    if place.pass_through then (db, true, "PASSTHROUGH")
    else if is_place_full db place_id then (db, false, "FULL")
    else
      let leave_time := now + pyOrInt place.stay_time_seconds 60
      let entry : Occupancy := ⟨vehicle_id, place_id, leave_time⟩
      ({ db with occupancy := db.occupancy ++ [entry] }, true, "ENTERED")

/-- `remove_vehicle_from_place`: delete the first occupancy row of the
vehicle if present, reporting whether one was found. -/
def remove_vehicle_from_place (db : PlacesDB) (vehicle_id : String) :
    PlacesDB × Bool :=
  if db.occupancy.any (fun o => o.vehicle_id == vehicle_id) then
    ({ db with occupancy := db.occupancy.eraseP (fun o => o.vehicle_id == vehicle_id) }, true)
  else (db, false)

/-- `get_expired_occupants`: all rows with `leave_after <= now`. -/
def get_expired_occupants (db : PlacesDB) (now : Int) : List Occupancy :=
  db.occupancy.filter (fun o => o.leave_after ≤ now)

/-- Number of live occupancy rows held by one vehicle. -/
def vehicle_record_count (db : PlacesDB) (vehicle_id : String) : Nat :=
  (db.occupancy.filter (fun o => o.vehicle_id == vehicle_id)).length

/-! ## Interleaving model of concurrent `try_enter_place` calls

`try_enter_place` runs its capacity check (`is_place_full`, line 32 of
`places.py`, whose count runs in its own database session) and its insert
(`session.add` / `session.commit`, lines 36-38) as two separate database
operations with no lock or transaction spanning both.  A concurrent call is
therefore modelled as a thread with three phases: `ready` (about to run the
lookup and the capacity check), `checked` (check passed, insert still
pending), `done`.  A schedule picks which thread runs its next atomic slice. -/

inductive EnterPhase where
  | ready
  | checked (stay : Int)
  | done (ok : Bool) (msg : String)
deriving DecidableEq, Repr

structure EnterThread where
  vehicle_id : String
  place_id : String
  phase : EnterPhase
deriving DecidableEq, Repr

/-- One atomic slice of `try_enter_place` executed by thread `t`: from
`ready` it performs the place lookup, the pass-through test and the
`is_place_full` count against the current database; from `checked` it
performs the insert-and-commit.  The two slices together are exactly the
body of `try_enter_place`. -/
def enter_thread_step (db : PlacesDB) (t : EnterThread) (now : Int) :
    PlacesDB × EnterThread :=
  match t.phase with
  | .done _ _ => (db, t)
  | .ready =>
    match get_place_by_id db t.place_id with
    | none => (db, { t with phase := .done false "INVALID_PLACE" })
    | some place =>
      if place.pass_through then (db, { t with phase := .done true "PASSTHROUGH" })
      else if is_place_full db t.place_id then (db, { t with phase := .done false "FULL" })
      else (db, { t with phase := .checked (pyOrInt place.stay_time_seconds 60) })
  | .checked stay =>
    let entry : Occupancy := ⟨t.vehicle_id, t.place_id, now + stay⟩
    ({ db with occupancy := db.occupancy ++ [entry] }, { t with phase := .done true "ENTERED" })

/-- Run the threads under a schedule: each entry of the schedule names the
thread that executes its next atomic slice (out-of-range entries are
skipped). -/
def run_schedule (now : Int) : List Nat → PlacesDB × List EnterThread → PlacesDB × List EnterThread
  | [], s => s
  | i :: rest, (db, ts) =>
    match ts.get? i with
    | none => run_schedule now rest (db, ts)
    | some t =>
      let p := enter_thread_step db t now
      run_schedule now rest (p.1, ts.set i p.2)

/-! ## Fixtures for concrete evaluations -/

/-- A place of capacity 1 with no occupants, entered concurrently by two
vehicles. -/
def c1_db : PlacesDB := ⟨[⟨"P1", some 1, some 10, false⟩], []⟩

def c1_threads : List EnterThread :=
  [⟨"V1", "P1", .ready⟩, ⟨"V2", "P1", .ready⟩]

/-- A place whose stay duration is set to zero seconds. -/
def c3_db : PlacesDB := ⟨[⟨"P1", none, some 0, false⟩], []⟩

/-- The stay duration the spec prescribes: the stored value, 60 seconds
only when unset. -/
def spec_effective_stay (stay : Option Int) : Int :=
  stay.getD 60

/-- An unlimited-capacity place with no occupants. -/
def c5_db : PlacesDB := ⟨[⟨"P1", none, some 10, false⟩], []⟩

/-- Each vehicle holds at most one live occupancy record. -/
def VehAtMostOne (db : PlacesDB) : Prop :=
  ∀ v, vehicle_record_count db v ≤ 1

/-- `try_enter_place` either leaves the occupancy table unchanged or appends
exactly one row, owned by the calling vehicle. -/
theorem try_enter_occupancy_cases (db : PlacesDB) (vid pid : String) (now : Int) :
    (try_enter_place db vid pid now).1.occupancy = db.occupancy ∨
    ∃ e : Occupancy, e.vehicle_id = vid ∧
      (try_enter_place db vid pid now).1.occupancy = db.occupancy ++ [e] := by
  unfold try_enter_place
  cases get_place_by_id db pid with
  | none => exact Or.inl rfl
  | some place =>
    by_cases hpt : place.pass_through
    · simp [hpt]
    · by_cases hfull : is_place_full db pid
      · simp [hpt, hfull]
      · simp only [hpt, hfull, Bool.false_eq_true, if_false]
        exact Or.inr ⟨⟨vid, pid, now + pyOrInt place.stay_time_seconds 60⟩, rfl, rfl⟩

/-! ## Claims about the Place Occupancy Manager -/

/-- Claim C1.  The claim asserts that under every interleaving of concurrent
`try_enter` calls a place with capacity C never holds more than C live
occupancy records.  The code runs the capacity check and the insert as two
separate operations, so the interleaving check-V1, check-V2, insert-V1,
insert-V2 against a capacity-1 place with no occupants lets both calls
return ENTERED and leaves 2 > 1 live records: the claim fails on the code
(the spec itself demands an atomic admission operation that the code does
not implement). -/
theorem c1_race_exceeds_capacity :
    occupancy_count (run_schedule 0 [0, 1, 0, 1] (c1_db, c1_threads)).1 "P1" = 2 ∧
    get_place_by_id c1_db "P1" = some ⟨"P1", some 1, some 10, false⟩ ∧
    ((run_schedule 0 [0, 1, 0, 1] (c1_db, c1_threads)).2.map (fun t => t.phase)) =
      [.done true "ENTERED", .done true "ENTERED"] ∧
    ¬ ((occupancy_count (run_schedule 0 [0, 1, 0, 1] (c1_db, c1_threads)).1 "P1" : Int) ≤ 1) := by
  refine ⟨rfl, rfl, rfl, ?_⟩
  decide

/-- Counterexample to claim C3 as stated: for a place whose stay duration is
set to zero, the code computes `leave_after = now + 60` (Python evaluates
`0 or 60` to 60), while the claim prescribes `now +` the place's stay
duration, i.e. `now + 0`. -/
theorem c3_counterexample_zero_stay :
    (try_enter_place c3_db "V1" "P1" 100).1.occupancy = [⟨"V1", "P1", 160⟩] ∧
    (try_enter_place c3_db "V1" "P1" 100).2 = (true, "ENTERED") ∧
    100 + spec_effective_stay (some 0) = 100 ∧
    (160 : Int) ≠ 100 := by
  refine ⟨rfl, rfl, rfl, ?_⟩
  decide

/-- Claim C3 (amended).  For a known, non-pass-through place a single
non-concurrent `try_enter` returns FULL and writes nothing when the place
is full (which requires a defined capacity: unlimited places are never
full); otherwise it appends exactly one occupancy record with
`leave_after = now +` the stay duration, where an unset or zero stay
duration counts as 60 seconds, and returns ENTERED. -/
theorem c3_try_enter_characterization (db : PlacesDB) (vid pid : String) (now : Int)
    (place : Place) (hfind : get_place_by_id db pid = some place)
    (hpt : place.pass_through = false) :
    (is_place_full db pid = true →
      try_enter_place db vid pid now = (db, false, "FULL")) ∧
    (is_place_full db pid = false →
      try_enter_place db vid pid now =
        ({ db with occupancy :=
            db.occupancy ++ [⟨vid, pid, now + pyOrInt place.stay_time_seconds 60⟩] },
         true, "ENTERED")) ∧
    (place.max_capacity = none → is_place_full db pid = false) := by
  refine ⟨?_, ?_, ?_⟩
  · intro hfull
    unfold try_enter_place
    rw [hfind]
    simp [hpt, hfull]
  · intro hnotfull
    unfold try_enter_place
    rw [hfind]
    simp [hpt, hnotfull]
  · intro hcap
    unfold is_place_full
    rw [hfind]
    simp [hcap]

/-- Claim C4.  For every known place whose pass-through flag is set,
`try_enter` returns PASSTHROUGH and leaves the database (in particular the
occupancy table) entirely unchanged, whatever the capacity or the current
occupancy. -/
theorem c4_passthrough_no_record (db : PlacesDB) (vid pid : String) (now : Int)
    (place : Place) (hfind : get_place_by_id db pid = some place)
    (hpt : place.pass_through = true) :
    try_enter_place db vid pid now = (db, true, "PASSTHROUGH") := by
  unfold try_enter_place
  rw [hfind]
  simp [hpt]

/-- Witness for claim C4 at a concrete pass-through place. -/
theorem c4_witness :
    try_enter_place ⟨[⟨"P2", some 1, some 10, true⟩], []⟩ "V1" "P2" 0 =
      (⟨[⟨"P2", some 1, some 10, true⟩], []⟩, true, "PASSTHROUGH") :=
  c4_passthrough_no_record ⟨[⟨"P2", some 1, some 10, true⟩], []⟩ "V1" "P2" 0
    ⟨"P2", some 1, some 10, true⟩ (by decide) (by decide)

/-- Counterexample to claim C5 as stated: starting from a state where V1
holds no record, the two-operation sequence try_enter(V1, P1);
try_enter(V1, P1) against an unlimited place leaves V1 holding two live
occupancy records — `try_enter_place` never checks whether the vehicle
already holds one. -/
theorem c5_counterexample_double_entry :
    vehicle_record_count c5_db "V1" = 0 ∧
    vehicle_record_count
      (try_enter_place (try_enter_place c5_db "V1" "P1" 0).1 "V1" "P1" 0).1 "V1" = 2 := by
  exact ⟨rfl, rfl⟩

/-- Claim C5 (amended).  `leave` always preserves the invariant that each
vehicle holds at most one live occupancy record, and `try_enter` preserves
it provided the calling vehicle holds no live record at the time of the
call (as in the motion loop, which always leaves a place before entering
the next); a vehicle that calls `try_enter` while already holding a record
can acquire a second one. -/
theorem c5_invariant_preservation (db : PlacesDB) (vid pid w : String) (now : Int)
    (hinv : VehAtMostOne db) :
    VehAtMostOne (remove_vehicle_from_place db w).1 ∧
    (vehicle_record_count db vid = 0 →
      VehAtMostOne (try_enter_place db vid pid now).1) := by
  constructor
  · intro v
    have hsub : List.Sublist (remove_vehicle_from_place db w).1.occupancy db.occupancy := by
      unfold remove_vehicle_from_place
      by_cases h : db.occupancy.any (fun o => o.vehicle_id == w)
      · simp only [h, if_true]
        exact List.eraseP_sublist _
      · simp only [h, Bool.false_eq_true, if_false]
        exact List.Sublist.refl _
    have := (hsub.filter (fun o => o.vehicle_id == v)).length_le
    exact le_trans this (hinv v)
  · intro hzero v
    rcases try_enter_occupancy_cases db vid pid now with hsame | ⟨e, he, happ⟩
    · unfold vehicle_record_count
      rw [hsame]
      exact hinv v
    · unfold vehicle_record_count
      rw [happ, List.filter_append, List.length_append]
      by_cases hv : v = vid
      · subst hv
        unfold vehicle_record_count at hzero
        rw [hzero]
        simp [List.filter, he]
      · have hbe : (e.vehicle_id == v) = false := by
          rw [he]
          exact beq_eq_false_iff_ne.mpr fun h => hv h.symm
        have hone : (List.filter (fun o => o.vehicle_id == v) [e]).length = 0 := by
          simp [List.filter, hbe]
        rw [hone]
        simpa using hinv v

/-- Witness for claim C5 at a concrete database. -/
theorem c5_witness :
    VehAtMostOne (remove_vehicle_from_place c1_db "V9").1 ∧
    VehAtMostOne (try_enter_place c1_db "V1" "P1" 0).1 :=
  ⟨(c5_invariant_preservation c1_db "V1" "P1" "V9" 0
      (fun v => by simp [vehicle_record_count, c1_db])).1,
   (c5_invariant_preservation c1_db "V1" "P1" "V9" 0
      (fun v => by simp [vehicle_record_count, c1_db])).2 rfl⟩

/-- Witness for claim C3 at a concrete non-full place. -/
theorem c3_witness :
    try_enter_place c1_db "V3" "P1" 5 =
      ({ c1_db with occupancy := c1_db.occupancy ++ [⟨"V3", "P1", 5 + pyOrInt (some 10) 60⟩] },
       true, "ENTERED") :=
  (c3_try_enter_characterization c1_db "V3" "P1" 5 ⟨"P1", some 1, some 10, false⟩
    (by decide) rfl).2.1 (by decide)

/-! ## Session Authority (`main.py`, `Database.validate_session`)

One row of the `sessions` table: token, owning vehicle, absolute expiry
timestamp (`int(expires_at_dt.timestamp())`, seconds).  `validate_session`
is read-only on the database: it is embedded as a pure function of the
session table, the arguments and the current time, returning the
`(bool, message)` pair of the source. -/

structure SessionRow where
  session_id : String
  vehicle_id : String
  expires_at : Int
deriving DecidableEq, Repr

/-- The row the `SELECT ... WHERE session_id = ?` returns. -/
def sessionLookup (sessions : List SessionRow) (session_id : String) : Option SessionRow :=
  sessions.find? (fun r => r.session_id == session_id)

/-- `Database.validate_session` of `main.py` (lines 104-137): an empty token
is rejected up front (`if not session_id`); an unknown token or a token
bound to another vehicle yields INVALID_SESSION; a correctly bound token
yields SESSION_EXPIRED when `current_time_ts > expires_at_ts`, else VALID. -/
def validate_session (sessions : List SessionRow) (session_id expected_vehicle_id : String)
    (now : Int) : Bool × String :=
  if session_id = "" then (false, "SESSION_ID_MISSING")
  else
    match sessionLookup sessions session_id with
    | none => (false, "INVALID_SESSION")
    | some row =>
      if row.vehicle_id ≠ expected_vehicle_id then (false, "INVALID_SESSION")
      else if now > row.expires_at then (false, "SESSION_EXPIRED")
      else (true, "VALID")

/-- Counterexample to claim C2 as stated: at exactly the expiry instant
(`now = expires_at`, so now is at-or-past expiry) a known, correctly bound
token still validates VALID, because the code only expires it when
`current_time_ts > expires_at_ts` is strict. -/
theorem c2_counterexample_valid_at_expiry :
    (100 : Int) ≥ 100 ∧
    validate_session [⟨"tok", "V1", 100⟩] "tok" "V1" 100 = (true, "VALID") := by
  exact ⟨le_refl _, rfl⟩

/-- Claim C2 (amended).  `validate_session` is a pure read of the session
table and, for a non-empty token: it returns INVALID_SESSION when the token
is unknown or bound to a different vehicle id, SESSION_EXPIRED when it is
known and correctly bound but the current time is strictly past the expiry
instant, and VALID otherwise — in particular VALID still at exactly the
expiry instant.  An empty token is answered with SESSION_ID_MISSING. -/
theorem c2_validate_characterization (sessions : List SessionRow)
    (sid vid : String) (now : Int) (hsid : sid ≠ "") :
    (sessionLookup sessions sid = none →
      validate_session sessions sid vid now = (false, "INVALID_SESSION")) ∧
    (∀ row : SessionRow, sessionLookup sessions sid = some row →
      row.vehicle_id ≠ vid →
      validate_session sessions sid vid now = (false, "INVALID_SESSION")) ∧
    (∀ row : SessionRow, sessionLookup sessions sid = some row →
      row.vehicle_id = vid → row.expires_at < now →
      validate_session sessions sid vid now = (false, "SESSION_EXPIRED")) ∧
    (∀ row : SessionRow, sessionLookup sessions sid = some row →
      row.vehicle_id = vid → now ≤ row.expires_at →
      validate_session sessions sid vid now = (true, "VALID")) := by
  refine ⟨?_, ?_, ?_, ?_⟩
  · intro hnone
    unfold validate_session
    rw [hnone]
    simp [hsid]
  · intro row hrow hne
    unfold validate_session
    rw [hrow]
    simp [hsid, hne]
  · intro row hrow hvid hlt
    unfold validate_session
    rw [hrow]
    simp [hsid, hvid, hlt]
  · intro row hrow hvid hle
    unfold validate_session
    rw [hrow]
    simp [hsid, hvid, not_lt.mpr hle]

/-- Witness for claim C2: a bound, unexpired token validates VALID. -/
theorem c2_witness :
    validate_session [⟨"tok", "V1", 100⟩] "tok" "V1" 50 = (true, "VALID") :=
  (c2_validate_characterization [⟨"tok", "V1", 100⟩] "tok" "V1" 50
    (by decide)).2.2.2 ⟨"tok", "V1", 100⟩ (by decide) rfl (by decide)

/-! ## Command Dispatcher (`main.py`)

The sqlite tables of `main.py`: `vehicles`, `sessions`, `locations`.
Coordinates are parsed from the wire by Python's `float`; the embedding
abstracts that builtin as a parameter `parse : String → Option ℚ`
(`none` = `float` raises `ValueError`), since no claim depends on the
numeric value, only on whether parsing succeeds. -/

structure VehicleRow where
  vehicle_id : String
  vehicle_password : Option String
  vehicle_type : String
  status : String
deriving DecidableEq, Repr

structure LocationRow where
  vehicle_id : String
  longitude : Rat
  latitude : Rat
deriving DecidableEq, Repr

structure MainDB where
  vehicles : List VehicleRow
  sessions : List SessionRow
  locations : List LocationRow
deriving DecidableEq, Repr

/-- `Database.vehicle_exists`: `SELECT EXISTS(SELECT 1 FROM vehicles WHERE vehicle_id = ?)`. -/
def vehicle_exists (db : MainDB) (vehicle_id : String) : Bool :=
  db.vehicles.any (fun v => v.vehicle_id == vehicle_id)

/-- `Database.create_session`: a fresh globally-unique token (uuid4 is modelled
as a deterministic fresh name keyed by the table size), expiry `now` + 1 hour,
one inserted row. -/
def create_session (db : MainDB) (vehicle_id : String) (now : Int) : MainDB × String :=
  let session_id := "uuid-" ++ toString db.sessions.length
  ({ db with sessions := db.sessions ++ [⟨session_id, vehicle_id, now + 3600⟩] }, session_id)

/-- `Database.record_location`: one row appended to `locations` (the sqlite
error path is out of scope; the insert itself always succeeds here). -/
def record_location (db : MainDB) (vehicle_id : String) (longitude latitude : Rat) :
    MainDB × Bool :=
  ({ db with locations := db.locations ++ [⟨vehicle_id, longitude, latitude⟩] }, true)

/-- `Database.register_vehicle`: insert with status IDLE, refused on a
primary-key conflict (`IntegrityError`). -/
def register_vehicle (db : MainDB) (vehicle_id : String) (password : Option String)
    (vehicle_type : String) : MainDB × Bool :=
  if vehicle_exists db vehicle_id then (db, false)
  else ({ db with vehicles := db.vehicles ++ [⟨vehicle_id, password, vehicle_type, "IDLE"⟩] }, true)

/-- Python `self.vid[0]`: the first character, `IndexError` on the empty
string. -/
def pyFirstChar (s : String) : Option Char :=
  s.toList.head?

/-- `VehicleType(c)` (`Vehicle.py` lines 10-14): the enum accepts exactly
the values T, B, U, S and raises `ValueError` on anything else. -/
def vehicleTypeValue (c : Char) : Option String :=
  if c = 'T' then some "T"
  else if c = 'B' then some "B"
  else if c = 'U' then some "U"
  else if c = 'S' then some "S"
  else none

/-- `RegisterCommand._execute` (`main.py` lines 395-412).  `.error` marks an
uncaught Python exception escaping `_execute` (here: `IndexError` on an
empty vehicle id or `ValueError` from the `VehicleType` conversion, both
raised before any database access). -/
def register_inner (db : MainDB) (vid : String) (args : List String) (now : Int) :
    Except String (MainDB × List String) :=
  match pyFirstChar vid with
  | none => .error "IndexError"
  | some c =>
    match vehicleTypeValue c with
    | none => .error "ValueError"
    | some vtype =>
      let password := args.head?
      if vehicle_exists db vid then .ok (db, ["EXISTS"])
      else
        let r := register_vehicle db vid password vtype
        if r.2 then
          let s := create_session r.1 vid now
          .ok (s.1, [vid ++ "/" ++ s.2])
        else .ok (db, ["ERROR/Registration failed"])

/-- `Database.vehicle_password_correct` (`main.py` lines 79-82): the query is
`SELECT EXISTS(...)`, which always returns one row, and the code tests
`cursor.fetchone() is not None` — so the check always succeeds, whatever
the password. -/
def vehicle_password_correct (_db : MainDB) (_vid : String) (_password : Option String) : Bool :=
  true

/-- `LoginCommand._execute` (`main.py` lines 417-433). -/
def login_inner (db : MainDB) (vid : String) (args : List String) (now : Int) :
    MainDB × List String :=
  let password := args.head?
  if ¬ vehicle_exists db vid then (db, ["UNREGISTERED/Please register your vehicle"])
  else if ¬ vehicle_password_correct db vid password then
    (db, ["INVALID/Invalid vehicle id or password"])
  else
    let s := create_session db vid now
    (s.1, [vid ++ "/" ++ s.2])

/-- `Command._validate_args` (`main.py` lines 293-306): an exact count when
`ARGS_EXPECTED` is set, a minimum when `ARGS_MIN` is set, else anything.
It only logs on failure — no response is sent. -/
def base_validate_args (argsExpected argsMin : Option Nat) (args : List String) : Bool :=
  match argsExpected with
  | some e => args.length = e
  | none =>
    match argsMin with
    | some m => m ≤ args.length
    | none => true

/-- `SessionCommand._validate_args` (`main.py` lines 345-383): base count
check (silent on failure), then session validation on `args[0]`
(responding `ERROR/<message>` on failure), then the subclass count checks
against the remaining arguments.  Returns (passed, responses sent,
remaining arguments). -/
def session_validate_args (db : MainDB) (cmd_name vid : String) (args : List String)
    (now : Int) (argsExpected argsMin : Option Nat) : Bool × List String × List String :=
  if ¬ base_validate_args argsExpected argsMin args then (false, [], args)
  else
    let sid := args.getD 0 ""
    let v := validate_session db.sessions sid vid now
    if ¬ v.1 then (false, ["ERROR/" ++ v.2], args)
    else
      let rest := args.drop 1
      match argsExpected with
      | some e =>
        if rest.length ≠ e then
          (false, ["ERROR: " ++ cmd_name ++ " requires " ++ toString e ++
            " arguments after session ID, got " ++ toString rest.length ++ "."], rest)
        else (true, [], rest)
      | none =>
        match argsMin with
        | some m =>
          if rest.length < m then
            (false, ["ERROR: " ++ cmd_name ++ " requires at least " ++ toString m ++
              " arguments after session ID, got " ++ toString rest.length ++ "."], rest)
          else (true, [], rest)
        | none => (true, [], rest)

/-- `UpdateLocationCommand._execute` (`main.py` lines 439-458): a hard
`len(self.args) != 2` guard, then the two `float` conversions (`ValueError`
caught inside, answered with the invalid-location error), then
`record_location`. -/
def update_location_execute (parse : String → Option Rat) (db : MainDB) (vid : String)
    (args : List String) : MainDB × List String :=
  if args.length ≠ 2 then (db, ["ERROR/Internal argument processing error"])
  else
    match parse (args.getD 0 ""), parse (args.getD 1 "") with
    | some longitude, some latitude =>
      let r := record_location db vid longitude latitude
      if r.2 then (r.1, ["OK/Location Updated"])
      else (db, ["ERROR/Failed to update location in database"])
    | _, _ => (db, ["ERROR/Invalid location format. Longitude/Latitude must be numbers."])

/-- The closed set of registered handlers (`Command.COMMANDS` after the
three `__init_subclass__` registrations in `main.py`). -/
inductive CmdName where
  | register
  | login
  | updateLocation
deriving DecidableEq, Repr

def lookup_command (name : String) : Option CmdName :=
  if name = "REGISTER" then some .register
  else if name = "LOGIN" then some .login
  else if name = "UPDATE_LOCATION" then some .updateLocation
  else none

/-- `Command.execute` for each handler, with its class constants:
REGISTER and LOGIN declare no argument-count constraint;
UPDATE_LOCATION inherits `ARGS_MIN = 1` from `SessionCommand` and sets only
the unused attribute `EXPECTED_ARGS_COUNT`, so its `ARGS_EXPECTED` stays
`None`.  An exception escaping `_execute` is caught here and answered with
the generic `ERROR:Internal server error`. -/
def run_command (parse : String → Option Rat) (cmd : CmdName) (db : MainDB)
    (vid : String) (args : List String) (now : Int) : MainDB × List String :=
  match cmd with
  | .register =>
    match register_inner db vid args now with
    | .ok r => r
    | .error _ => (db, ["ERROR:Internal server error"])
  | .login => login_inner db vid args now
  | .updateLocation =>
    let v := session_validate_args db "UPDATE_LOCATION" vid args now none (some 1)
    if v.1 then
      let r := update_location_execute parse db vid v.2.2
      (r.1, v.2.1 ++ r.2)
    else (db, v.2.1)

/-- Python `str.upper()` on ASCII command names, character by character. -/
def pyUpper (s : String) : String :=
  String.mk (s.toList.map Char.toUpper)

/-- Python `str.split(sep)` for a one-character separator: accumulate the
current field, cut at every separator, never drop empty fields. -/
def pySplitAux (sep : Char) : List Char → List Char → List String
  | [], acc => [String.mk acc.reverse]
  | c :: rest, acc =>
    if c = sep then String.mk acc.reverse :: pySplitAux sep rest []
    else pySplitAux sep rest (c :: acc)

def pySplit (s : String) (sep : Char) : List String :=
  pySplitAux sep s.toList []

/-- What the connection handler observes of one `handle_command` call:
either the command path ran to completion, or a `TypeError` escaped
`handle_command` before anything was delivered (and was swallowed by
`handle_client`). -/
inductive DispatchOutcome where
  | ok
  | typeErrorBeforeResponse
deriving DecidableEq, Repr

/-- `TransitSystem.handle_command` of `main.py` (lines 244-266), after the
`split('/')`.  On fewer than two fields (line 248) and on an unknown
command (line 258) the code passes a `str` — not `bytes` — to
`socket.sendall`, which raises `TypeError`; the exception is caught one
level up in `handle_client`, so no response is delivered to the caller at
all (the unknown-command branch also lacks a `return`, but the raise
happens before the fall-through). -/
def dispatch (parse : String → Option Rat) (db : MainDB) (now : Int)
    (fields : List String) : MainDB × List String × DispatchOutcome :=
  if fields.length < 2 then (db, [], .typeErrorBeforeResponse)
  else
    match lookup_command (pyUpper (fields.getD 1 "")) with
    | none => (db, [], .typeErrorBeforeResponse)
    | some cmd =>
      let r := run_command parse cmd db (fields.getD 0 "") (fields.drop 2) now
      (r.1, r.2, .ok)

/-- One full frame: `handle_command` begins with `args = args.split('/')`. -/
def handle_command (parse : String → Option Rat) (db : MainDB) (now : Int)
    (msg : String) : MainDB × List String × DispatchOutcome :=
  dispatch parse db now (pySplit msg '/')

/-- Stepping lemma: a frame with at least two fields whose command name
resolves runs that handler. -/
theorem dispatch_known (parse : String → Option Rat) (db : MainDB) (now : Int)
    (vid cmds : String) (args : List String) (cmd : CmdName)
    (h : lookup_command (pyUpper cmds) = some cmd) :
    dispatch parse db now (vid :: cmds :: args) =
      ((run_command parse cmd db vid args now).1,
       (run_command parse cmd db vid args now).2, .ok) := by
  unfold dispatch
  have hlen : ¬ ((vid :: cmds :: args).length < 2) := by simp
  rw [if_neg hlen]
  have hgd : ((vid :: cmds :: args).getD 1 "") = cmds := rfl
  rw [hgd, h]
  rfl

/-! ## Fixtures and claims for the dispatcher -/

/-- A concrete stand-in for Python `float` on the inputs the witnesses use. -/
def parse0 : String → Option Rat :=
  fun s => if s = "1.0" then some 1 else if s = "2.0" then some 2 else none

/-- A database with one registered vehicle B101 holding the unexpired
session token `tok`. -/
def c8_db : MainDB :=
  ⟨[⟨"B101", some "pw", "B", "IDLE"⟩], [⟨"tok", "B101", 1000⟩], []⟩

/-- Claim C7.  An UPDATE_LOCATION frame whose session token validates but
whose longitude or latitude does not parse as a number leaves the database
— in particular the location history — unchanged, and the single response
is an error containing "Invalid location format". -/
theorem c7_invalid_location_unchanged (parse : String → Option Rat) (db : MainDB)
    (now : Int) (vid tok lon lat : String)
    (hval : validate_session db.sessions tok vid now = (true, "VALID"))
    (hparse : parse lon = none ∨ parse lat = none) :
    dispatch parse db now (vid :: "UPDATE_LOCATION" :: [tok, lon, lat]) =
      (db, ["ERROR/Invalid location format. Longitude/Latitude must be numbers."], .ok) ∧
    ∃ a b, "ERROR/Invalid location format. Longitude/Latitude must be numbers." =
      a ++ "Invalid location format" ++ b := by
  constructor
  · rw [dispatch_known parse db now vid "UPDATE_LOCATION" [tok, lon, lat]
      .updateLocation (by decide)]
    have hsess : session_validate_args db "UPDATE_LOCATION" vid [tok, lon, lat] now
        none (some 1) = (true, [], [lon, lat]) := by
      simp [session_validate_args, base_validate_args, hval]
    have hexec : update_location_execute parse db vid [lon, lat] =
        (db, ["ERROR/Invalid location format. Longitude/Latitude must be numbers."]) := by
      unfold update_location_execute
      have hlen2 : ¬ (([lon, lat] : List String).length ≠ 2) := by simp
      rw [if_neg hlen2]
      rcases hparse with h | h
      · have h0 : ([lon, lat].getD 0 "") = lon := rfl
        rw [h0, h]
      · have h0 : ([lon, lat].getD 0 "") = lon := rfl
        have h1 : ([lon, lat].getD 1 "") = lat := rfl
        rw [h0, h1, h]
        cases parse lon <;> rfl
    have hrun : run_command parse .updateLocation db vid [tok, lon, lat] now =
        (db, ["ERROR/Invalid location format. Longitude/Latitude must be numbers."]) := by
      unfold run_command
      rw [hsess]
      simpa using hexec
    rw [hrun]
  · exact ⟨"ERROR/", ". Longitude/Latitude must be numbers.", rfl⟩

/-- Witness for claim C7: a valid token with a non-numeric longitude. -/
theorem c7_witness :
    dispatch parse0 c8_db 500 ("B101" :: "UPDATE_LOCATION" :: ["tok", "abc", "2.0"]) =
      (c8_db, ["ERROR/Invalid location format. Longitude/Latitude must be numbers."], .ok) ∧
    ∃ a b, "ERROR/Invalid location format. Longitude/Latitude must be numbers." =
      a ++ "Invalid location format" ++ b :=
  c7_invalid_location_unchanged parse0 c8_db 500 "B101" "tok" "abc" "2.0"
    (by decide) (Or.inl (by decide))

/-- Claim C8.  The claim asserts that the documented optional-state frame
`<vid>/UPDATE_LOCATION/<token>/<lon>/<lat>/<state>` with a valid session and
numeric coordinates records the location and answers OK/Location Updated.
In the code `UpdateLocationCommand` sets only the unused attribute
`EXPECTED_ARGS_COUNT` (its effective `ARGS_EXPECTED` stays `None`) and
`_execute` hard-rejects any argument list whose length is not 2, so the
three-argument form is answered with `ERROR/Internal argument processing
error` and nothing is recorded — even though the token is valid and both
coordinates parse. -/
theorem c8_state_field_rejected :
    dispatch parse0 c8_db 500 ["B101", "UPDATE_LOCATION", "tok", "1.0", "2.0", "MOVING"] =
      (c8_db, ["ERROR/Internal argument processing error"], .ok) ∧
    validate_session c8_db.sessions "tok" "B101" 500 = (true, "VALID") ∧
    parse0 "1.0" = some 1 ∧ parse0 "2.0" = some 2 ∧
    c8_db.locations = [] := by
  exact ⟨rfl, rfl, rfl, rfl, rfl⟩

/-- Claim C9.  The claim asserts that malformed frames (fewer than two
fields), unknown commands and argument-count failures are answered with a
structured error response.  In `main.py` the first two paths pass a `str`
to `socket.sendall`, which raises `TypeError` before anything is delivered
(the exception is swallowed by `handle_client`), and an argument-count
failure in `Command._validate_args` only logs and returns — so in all
three cases no response at all reaches the caller, though no state is
altered. -/
theorem c9_malformed_no_response :
    handle_command parse0 c8_db 500 "junk" =
      (c8_db, [], .typeErrorBeforeResponse) ∧
    dispatch parse0 c8_db 500 ["B101", "FLY", "x"] =
      (c8_db, [], .typeErrorBeforeResponse) ∧
    dispatch parse0 c8_db 500 ["B101", "UPDATE_LOCATION"] = (c8_db, [], .ok) := by
  exact ⟨rfl, rfl, rfl⟩

/-- Claim C10.  A REGISTER frame whose vehicle id starts with a character
outside {T, B, U, S} creates no vehicle row and no session: the
`VehicleType` conversion raises before any database write, `Command.execute`
catches the exception and sends the generic error, and the outcome is
`ok` (the connection handler keeps serving). -/
theorem c10_register_bad_type (parse : String → Option Rat) (db : MainDB) (now : Int)
    (args : List String) (vid : String) (c : Char)
    (hc : pyFirstChar vid = some c)
    (hT : c ≠ 'T') (hB : c ≠ 'B') (hU : c ≠ 'U') (hS : c ≠ 'S') :
    dispatch parse db now (vid :: "REGISTER" :: args) =
      (db, ["ERROR:Internal server error"], .ok) := by
  rw [dispatch_known parse db now vid "REGISTER" args .register (by decide)]
  have htype : vehicleTypeValue c = none := by
    unfold vehicleTypeValue
    rw [if_neg hT, if_neg hB, if_neg hU, if_neg hS]
  have hrun : run_command parse .register db vid args now =
      (db, ["ERROR:Internal server error"]) := by
    unfold run_command register_inner
    simp only [hc]
    simp only [htype]
  rw [hrun]

/-- Witness for claim C10 with the vehicle id X101. -/
theorem c10_witness :
    dispatch parse0 c8_db 500 ("X101" :: "REGISTER" :: []) =
      (c8_db, ["ERROR:Internal server error"], .ok) :=
  c10_register_bad_type parse0 c8_db 500 [] "X101" 'X'
    (by decide) (by decide) (by decide) (by decide) (by decide)

/-! ## Vehicle Motion State Machine (`Vehicle.py`, `run_route_loop`)

One iteration of the `while self.is_running` body, acting on the mutable
per-vehicle fields (`route`, `current_index`, `state`, `lat`, `lon`).  The
database reads of an iteration (`get_place_by_id`, `is_place_full`,
`is_position_occupied`, the target coordinates and the `try_enter_place`
outcome) and the float geometry of the arrival test are supplied by a
per-tick environment, so every theorem below holds for every possible
answer of those collaborators.  Occupancy side effects (`try_enter_place`,
`remove_vehicle_from_place`) touch only the places database, not the
vehicle state, and are covered by the occupancy theorems above.  The
returned list records the `self.state` values reported by the
`update_server_status()` calls of the iteration, in order; a `FINISHED`
iteration is a no-op with no report, since the source sets `FINISHED` and
immediately leaves the loop via `break`. -/

structure VehicleSt where
  route : List String
  current_index : Nat
  state : String
  lat : Rat
  lon : Rat
deriving DecidableEq, Repr

structure MotionEnv where
  place_exists : String → Bool
  pass_through : String → Bool
  place_full : String → Bool
  target_lat : Rat
  target_lon : Rat
  blocked : Bool
  arrived : Bool
  enter_ok : Bool

/-- The index advance shared by the pass-through and waiting paths:
`self.current_index += 1`, then FINISHED (and loop exit) when
`self.current_index >= len(self.route)`, else back to IDLE. -/
def advance_route (s : VehicleSt) (pre : List String) : VehicleSt × List String :=
  if s.route.length ≤ s.current_index + 1 then
    ({ s with current_index := s.current_index + 1, state := "FINISHED" }, pre ++ ["FINISHED"])
  else
    ({ s with current_index := s.current_index + 1, state := "IDLE" }, pre ++ ["IDLE"])

/-- One tick of `run_route_loop` (`Vehicle.py` lines 334-429). -/
def motionStep (env : MotionEnv) (s : VehicleSt) : VehicleSt × List String :=
  if s.state = "IDLE" ∧ s.route ≠ [] then
    let pid := s.route.getD s.current_index ""
    if ¬ env.place_exists pid then ({ s with state := "IDLE" }, [])
    else if ¬ env.pass_through pid ∧ env.place_full pid then
      ({ s with state := "DELAYED" }, ["DELAYED"])
    else ({ s with state := "MOVING" }, ["MOVING"])
  else if s.state = "MOVING" then
    let pid := s.route.getD s.current_index ""
    if ¬ env.place_exists pid then ({ s with state := "IDLE" }, [])
    else if env.blocked then ({ s with state := "DELAYED" }, ["DELAYED"])
    else
      let s1 := { s with lat := s.lat + (env.target_lat - s.lat) * (1/10),
                         lon := s.lon + (env.target_lon - s.lon) * (1/10) }
      if ¬ env.arrived then (s1, ["MOVING"])
      else if env.enter_ok then
        if env.pass_through pid then advance_route s1 ["MOVING"]
        else advance_route { s1 with state := "WAITING" } ["MOVING", "WAITING"]
      else ({ s1 with state := "MOVING" }, ["MOVING", "DELAYED", "MOVING"])
  else (s, [])

/-- A whole run: fold the per-tick environments over the start state. -/
def run_motion (envs : List MotionEnv) (s : VehicleSt) : VehicleSt :=
  envs.foldl (fun st e => (motionStep e st).1) s

/-- The state `Vehicle.__init__` sets up: step 0, IDLE, origin. -/
def init_vehicle (route : List String) : VehicleSt :=
  ⟨route, 0, "IDLE", 0, 0⟩

/-- The reachability invariant of the loop: the index never passes the
route length, and it equals the length only in the FINISHED state. -/
def MotionInv (s : VehicleSt) : Prop :=
  s.current_index ≤ s.route.length ∧
  (s.current_index = s.route.length → s.state = "FINISHED")

theorem motionStep_route (env : MotionEnv) (s : VehicleSt) :
    (motionStep env s).1.route = s.route := by
  simp only [motionStep, advance_route]
  repeat' split
  all_goals rfl

theorem motionStep_index_mono (env : MotionEnv) (s : VehicleSt) :
    s.current_index ≤ (motionStep env s).1.current_index := by
  simp only [motionStep, advance_route]
  repeat' split
  all_goals simp

theorem motionStep_inv (env : MotionEnv) (s : VehicleSt) (h : MotionInv s) :
    MotionInv (motionStep env s).1 := by
  obtain ⟨h1, h2⟩ := h
  simp only [MotionInv, motionStep, advance_route]
  split
  case isTrue hidle =>
    have hne : s.current_index ≠ s.route.length := by
      intro he
      rw [h2 he] at hidle
      exact absurd hidle.1 (by decide)
    repeat' split
    all_goals exact ⟨h1, fun he => absurd he hne⟩
  case isFalse hnidle =>
    split
    case isFalse hnm => exact ⟨h1, h2⟩
    case isTrue hm =>
      have hne : s.current_index ≠ s.route.length := by
        intro he
        rw [h2 he] at hm
        exact absurd hm (by decide)
      have hlt : s.current_index < s.route.length := lt_of_le_of_ne h1 hne
      repeat' split
      all_goals dsimp only at *
      all_goals first
        | exact ⟨h1, fun he => absurd he hne⟩
        | exact ⟨by omega, fun _ => rfl⟩
        | (rename_i hcut
           exact ⟨by omega, fun he => absurd he (by omega)⟩)

theorem motionStep_finished (env : MotionEnv) (s : VehicleSt)
    (h : s.state = "FINISHED") : motionStep env s = (s, []) := by
  unfold motionStep
  have h1 : ¬ (s.state = "IDLE" ∧ s.route ≠ []) := by
    rintro ⟨hi, _⟩
    rw [h] at hi
    exact absurd hi (by decide)
  have h2 : ¬ (s.state = "MOVING") := by
    rw [h]
    decide
  rw [if_neg h1, if_neg h2]

theorem run_motion_inv (envs : List MotionEnv) (s : VehicleSt) (h : MotionInv s) :
    MotionInv (run_motion envs s) := by
  induction envs generalizing s with
  | nil => exact h
  | cons e rest ih => exact ih _ (motionStep_inv e s h)

theorem run_motion_route (envs : List MotionEnv) (s : VehicleSt) :
    (run_motion envs s).route = s.route := by
  induction envs generalizing s with
  | nil => rfl
  | cons e rest ih =>
    show (run_motion rest (motionStep e s).1).route = s.route
    rw [ih, motionStep_route]

/-- Claim C6.  Across every tick of the motion loop, under every possible
behaviour of the places database and the position arbiter: the route step
index never decreases; a FINISHED vehicle takes no further transition and
issues no further status report (the source breaks out of the loop); and a
vehicle started on a non-empty route whose index has reached the route
length is in the FINISHED state. -/
theorem c6_route_monotone_finished_terminal (route : List String)
    (envs : List MotionEnv) (hroute : route ≠ []) :
    (∀ env s, s.current_index ≤ (motionStep env s).1.current_index) ∧
    (∀ env s, s.state = "FINISHED" → motionStep env s = (s, [])) ∧
    ((run_motion envs (init_vehicle route)).current_index =
        (run_motion envs (init_vehicle route)).route.length →
      (run_motion envs (init_vehicle route)).state = "FINISHED") ∧
    (run_motion envs (init_vehicle route)).current_index ≤ route.length := by
  have hinit : MotionInv (init_vehicle route) := by
    constructor
    · exact Nat.zero_le _
    · intro he
      exfalso
      have : route.length ≠ 0 := by
        intro hz
        exact hroute (List.length_eq_zero.mp hz)
      exact this he.symm
  have hfin := run_motion_inv envs (init_vehicle route) hinit
  have hroute_pres : (run_motion envs (init_vehicle route)).route = route :=
    run_motion_route envs (init_vehicle route)
  exact ⟨motionStep_index_mono, motionStep_finished, hfin.2, by
    have := hfin.1
    rw [hroute_pres] at this
    exact this⟩

/-- A tick in which the next place exists, is pass-through, and the vehicle
arrives and enters. -/
def env0 : MotionEnv :=
  { place_exists := fun _ => true, pass_through := fun _ => true,
    place_full := fun _ => false, target_lat := 0, target_lon := 0,
    blocked := false, arrived := true, enter_ok := true }

/-- Witness for claim C6: a one-stop route driven to completion in two
ticks ends FINISHED with its index at the route length. -/
theorem c6_witness :
    (run_motion [env0, env0] (init_vehicle ["P1"])).state = "FINISHED" ∧
    (run_motion [env0, env0] (init_vehicle ["P1"])).current_index ≤ ["P1"].length :=
  ⟨(c6_route_monotone_finished_terminal ["P1"] [env0, env0] (by decide)).2.2.1 rfl,
   (c6_route_monotone_finished_terminal ["P1"] [env0, env0] (by decide)).2.2.2⟩

end Transit
